import Mathlib

/-!
# Verification of the noise-repellent frame-wise denoising pipeline

Shallow embedding of the C sources of the noise-repellent fork
(suppression rules, transient detector, FFT denoiser orchestrator and the
LV2 state save/restore) over exact real arithmetic: every C `float` value
is modelled as a real number, `sqrtf` as Real.sqrt, `expf` as Real.exp and
`atan2f` through the complex argument.  Arrays are modelled as total
functions from bin index to value; a C loop that writes entries
`0..fft_size_2` becomes a function update guarded by the same index range.
-/

open Classical

noncomputable section

namespace NoiseRepellent

/-- FLT_MIN of IEEE-754 single precision, the smallest positive normalized
float, 2 ^ (-126).  The C sources use it as the "no information" epsilon. -/
def FLT_MIN : ℝ := 1 / 2 ^ 126

theorem FLT_MIN_pos : 0 < FLT_MIN := by
  unfold FLT_MIN; positivity

theorem FLT_MIN_lt_one : FLT_MIN < 1 := by
  unfold FLT_MIN
  rw [div_lt_one (by positivity)]
  exact one_lt_pow₀ (by norm_num) (by norm_num)

/-! ## Suppression rules (denoise_gain.c, src/unnamed/part_001)

Each C routine fills `Gk[k]` for `k = 0 .. fft_size_2`; the models return
the updated gain array, leaving indices outside the loop range at their
previous value. -/

/-- The local `gain` computed by the nonlinear power subtraction loop body
before the clamp sequence (C lines 34-43 of the routine). -/
def nonlinear_intermediate_gain (snr_influence s n : ℝ) : ℝ :=
  if s > 0 then
    (if snr_influence > 0 then
      max (s - (snr_influence + Real.sqrt (s / n)) * n) 0 / s
    else
      max (s - 1 * n) 0 / s)
  else 0

/-- Loop body of `nonlinear_power_sustraction` for one bin: the threshold
guard, the intermediate gain, then the sequential clamp
`Fk = 1-gain; if (Fk < 0) Fk = 0; if (Fk > 1) Fk = 1; Gk = 1 - Fk`. -/
def nonlinear_gain (snr_influence s n : ℝ) : ℝ :=
  if n > FLT_MIN then
    let gain := nonlinear_intermediate_gain snr_influence s n
    let Fk := 1 - gain
    let Fk2 := if Fk < 0 then 0 else Fk
    let Fk3 := if Fk2 > 1 then 1 else Fk2
    1 - Fk3
  else 1

/-- `nonlinear_power_sustraction`: writes the nonlinear gain at every bin
`k ≤ fft_size_2`. -/
def nonlinear_power_sustraction (snr_influence : ℝ) (fft_size_2 : ℕ)
    (spectrum noise_thresholds Gk : ℕ → ℝ) : ℕ → ℝ := fun k =>
  if k ≤ fft_size_2 then nonlinear_gain snr_influence (spectrum k) (noise_thresholds k)
  else Gk k

/-- Loop body of `power_sustraction` for one bin. -/
def power_sustraction_gain (s n : ℝ) : ℝ :=
  if n > FLT_MIN then
    (if s > n then (s - n) / s else 0)
  else 1

/-- `power_sustraction`: writes the subtractive gain at every bin
`k ≤ fft_size_2`. -/
def power_sustraction (fft_size_2 : ℕ)
    (spectrum noise_thresholds Gk : ℕ → ℝ) : ℕ → ℝ := fun k =>
  if k ≤ fft_size_2 then power_sustraction_gain (spectrum k) (noise_thresholds k)
  else Gk k

/-- Loop body of `spectral_gating` for one bin (hard knee). -/
def spectral_gating_gain (s n : ℝ) : ℝ :=
  if n > FLT_MIN then
    (if s ≥ n then 1 else 0)
  else 1

/-- `spectral_gating`: writes the hard-knee gain at every bin
`k ≤ fft_size_2`. -/
def spectral_gating (fft_size_2 : ℕ)
    (spectrum noise_thresholds Gk : ℕ → ℝ) : ℕ → ℝ := fun k =>
  if k ≤ fft_size_2 then spectral_gating_gain (spectrum k) (noise_thresholds k)
  else Gk k

/-- `wideband_gating`: first sums the whole spectrum (`x_value`) and the
whole threshold vector (`n_value`) over bins `0 .. fft_size_2`, then writes
the same aggregate hard-knee decision into every bin `k ≤ fft_size_2`. -/
def wideband_gating (fft_size_2 : ℕ)
    (spectrum noise_thresholds Gk : ℕ → ℝ) : ℕ → ℝ :=
  let x_value := ∑ j ∈ Finset.range (fft_size_2 + 1), spectrum j
  let n_value := ∑ j ∈ Finset.range (fft_size_2 + 1), noise_thresholds j
  fun k =>
    if k ≤ fft_size_2 then
      (if n_value > FLT_MIN then (if x_value ≥ n_value then 1 else 0) else 1)
    else Gk k

/-! ## Basic bounds for the suppression-rule gains -/

theorem nonlinear_intermediate_gain_nonneg (snr s n : ℝ) :
    0 ≤ nonlinear_intermediate_gain snr s n := by
  unfold nonlinear_intermediate_gain
  split
  · split <;> positivity
  · exact le_refl 0

theorem nonlinear_intermediate_gain_le_one (snr s : ℝ) {n : ℝ} (hn : 0 ≤ n) :
    nonlinear_intermediate_gain snr s n ≤ 1 := by
  unfold nonlinear_intermediate_gain
  split
  · rename_i hs
    have hs' : (0:ℝ) < s := hs
    split
    · rename_i hsnr
      rw [div_le_one hs']
      refine max_le ?_ (le_of_lt hs')
      have hsq : 0 ≤ Real.sqrt (s / n) := Real.sqrt_nonneg _
      nlinarith
    · rw [div_le_one hs']
      refine max_le ?_ (le_of_lt hs')
      nlinarith
  · norm_num

/-- For an intermediate gain already in [0,1], the sequential clamp in
`nonlinear_power_sustraction` is the identity. -/
theorem nonlinear_gain_eq_intermediate {snr s n : ℝ} (hn : FLT_MIN < n) :
    nonlinear_gain snr s n = nonlinear_intermediate_gain snr s n := by
  have h0 := nonlinear_intermediate_gain_nonneg snr s n
  have h1 := nonlinear_intermediate_gain_le_one snr s
      (le_trans (le_of_lt FLT_MIN_pos) (le_of_lt hn))
  unfold nonlinear_gain
  rw [if_pos hn]
  simp only
  rw [if_neg (show ¬(1 - nonlinear_intermediate_gain snr s n < 0) by linarith)]
  rw [if_neg (show ¬(1 - nonlinear_intermediate_gain snr s n > 1) by linarith)]
  ring

theorem nonlinear_gain_mem_Icc (snr s n : ℝ) :
    0 ≤ nonlinear_gain snr s n ∧ nonlinear_gain snr s n ≤ 1 := by
  unfold nonlinear_gain
  split
  · simp only
    constructor
    · split
      · split <;> norm_num
      · rename_i h
        split
        · norm_num
        · rename_i h2
          push_neg at h2
          linarith
    · split
      · split <;> norm_num
      · rename_i h
        push_neg at h
        split <;> linarith
  · norm_num

theorem power_sustraction_gain_mem_Icc (s n : ℝ) :
    0 ≤ power_sustraction_gain s n ∧ power_sustraction_gain s n ≤ 1 := by
  unfold power_sustraction_gain
  split
  · rename_i hn
    have hn0 : (0:ℝ) < n := lt_trans FLT_MIN_pos hn
    split
    · rename_i hs
      have hs0 : (0:ℝ) < s := lt_trans hn0 hs
      constructor
      · exact div_nonneg (by linarith) (le_of_lt hs0)
      · rw [div_le_one hs0]; linarith
    · norm_num
  · norm_num

theorem spectral_gating_gain_mem_Icc (s n : ℝ) :
    0 ≤ spectral_gating_gain s n ∧ spectral_gating_gain s n ≤ 1 := by
  unfold spectral_gating_gain
  split
  · split <;> norm_num
  · norm_num

theorem nonlinear_gain_zero_signal {snr n : ℝ} (hn : FLT_MIN < n) :
    nonlinear_gain snr 0 n = 0 := by
  rw [nonlinear_gain_eq_intermediate hn]
  unfold nonlinear_intermediate_gain
  norm_num

theorem power_sustraction_gain_zero_signal {n : ℝ} (hn : FLT_MIN < n) :
    power_sustraction_gain 0 n = 0 := by
  have hn0 : (0:ℝ) < n := lt_trans FLT_MIN_pos hn
  unfold power_sustraction_gain
  rw [if_pos hn, if_neg (by linarith)]

theorem spectral_gating_gain_zero_signal {n : ℝ} (hn : FLT_MIN < n) :
    spectral_gating_gain 0 n = 0 := by
  have hn0 : (0:ℝ) < n := lt_trans FLT_MIN_pos hn
  unfold spectral_gating_gain
  rw [if_pos hn, if_neg (by linarith)]

/-! ## Claim C1 -/

/-- C1 counterexample: for `wideband_gating` with thresholds (0, 1) and an
all-zero spectrum over bins 0..1, bin 0 has noise threshold 0 ≤ FLT_MIN
yet receives gain 0 (not the claimed pass-through 1), because the rule
tests the summed threshold, not the per-bin one. -/
theorem C1_counterexample :
    (fun j : ℕ => if j = 0 then (0:ℝ) else 1) 0 ≤ FLT_MIN ∧
    wideband_gating 1 (fun _ : ℕ => (0:ℝ)) (fun j : ℕ => if j = 0 then (0:ℝ) else 1)
      (fun _ : ℕ => (0:ℝ)) 0 = 0 := by
  constructor
  · simpa using FLT_MIN_pos.le
  · unfold wideband_gating
    simp only [Finset.sum_range_succ, Finset.sum_range_zero]
    norm_num [FLT_MIN_lt_one]

/-- C1 (amended): in the three per-bin rules (nonlinear power subtraction,
power subtraction, spectral gating), every bin whose noise threshold is at
or below FLT_MIN passes through with gain 1; in wideband gating the guard
is on the summed threshold vector: when the sum over bins 0..fft_size_2 is
at or below FLT_MIN, every bin passes through with gain 1. -/
theorem C1_pass_through_gain_one (snr_influence : ℝ) (fft_size_2 k : ℕ)
    (spectrum noise_thresholds Gk : ℕ → ℝ) (hk : k ≤ fft_size_2) :
    (noise_thresholds k ≤ FLT_MIN →
      nonlinear_power_sustraction snr_influence fft_size_2 spectrum noise_thresholds Gk k = 1 ∧
      power_sustraction fft_size_2 spectrum noise_thresholds Gk k = 1 ∧
      spectral_gating fft_size_2 spectrum noise_thresholds Gk k = 1) ∧
    ((∑ j ∈ Finset.range (fft_size_2 + 1), noise_thresholds j) ≤ FLT_MIN →
      wideband_gating fft_size_2 spectrum noise_thresholds Gk k = 1) := by
  constructor
  · intro hth
    refine ⟨?_, ?_, ?_⟩
    · unfold nonlinear_power_sustraction nonlinear_gain
      rw [if_pos hk, if_neg (not_lt.mpr hth)]
    · unfold power_sustraction power_sustraction_gain
      rw [if_pos hk, if_neg (not_lt.mpr hth)]
    · unfold spectral_gating spectral_gating_gain
      rw [if_pos hk, if_neg (not_lt.mpr hth)]
  · intro hsum
    unfold wideband_gating
    rw [if_pos hk, if_neg (not_lt.mpr hsum)]

/-- Witness for C1: concrete instance with all-zero thresholds over a
single bin. -/
theorem C1_witness :
    nonlinear_power_sustraction 0 0 (fun _ : ℕ => (0:ℝ)) (fun _ : ℕ => (0:ℝ))
      (fun _ : ℕ => (0:ℝ)) 0 = 1 ∧
    wideband_gating 0 (fun _ : ℕ => (0:ℝ)) (fun _ : ℕ => (0:ℝ))
      (fun _ : ℕ => (0:ℝ)) 0 = 1 := by
  have h := C1_pass_through_gain_one 0 0 0 (fun _ : ℕ => (0:ℝ)) (fun _ : ℕ => (0:ℝ))
    (fun _ : ℕ => (0:ℝ)) le_rfl
  exact ⟨(h.1 (by simpa using FLT_MIN_pos.le)).1,
    h.2 (by simpa using FLT_MIN_pos.le)⟩

/-! ## Claim C2 -/

/-- C2 counterexample: for `wideband_gating` with spectrum (0, 10) and
thresholds (1, 1), the aggregate test fires (10 ≥ 2), so bin 0 receives
gain 1 although its own signal value is 0 and its threshold 1 exceeds
FLT_MIN; the claim demands gain 0 there. -/
theorem C2_counterexample :
    (fun j : ℕ => if j = 0 then (0:ℝ) else 10) 0 = 0 ∧
    FLT_MIN < (1:ℝ) ∧
    wideband_gating 1 (fun j : ℕ => if j = 0 then (0:ℝ) else 10)
      (fun _ : ℕ => (1:ℝ)) (fun _ : ℕ => (0:ℝ)) 0 = 1 := by
  refine ⟨by norm_num, FLT_MIN_lt_one, ?_⟩
  unfold wideband_gating
  simp only [Finset.sum_range_succ, Finset.sum_range_zero]
  have h2 : FLT_MIN < (2:ℝ) := lt_trans FLT_MIN_lt_one (by norm_num)
  norm_num [h2]

/-- C2 (amended): for every rule and every bin in the loop range the
computed gain lies in [0,1] (every division in the rules has a positive
divisor, so in exact arithmetic no NaN/Inf arises); and in the three
per-bin rules a zero signal value with threshold above FLT_MIN yields
gain 0.  For wideband gating the gain depends only on the summed spectrum
and summed thresholds, so no per-bin zero-signal statement holds. -/
theorem C2_gain_bounds (snr_influence : ℝ) (fft_size_2 k : ℕ)
    (spectrum noise_thresholds Gk : ℕ → ℝ) (hk : k ≤ fft_size_2) :
    (0 ≤ nonlinear_power_sustraction snr_influence fft_size_2 spectrum noise_thresholds Gk k ∧
      nonlinear_power_sustraction snr_influence fft_size_2 spectrum noise_thresholds Gk k ≤ 1) ∧
    (0 ≤ power_sustraction fft_size_2 spectrum noise_thresholds Gk k ∧
      power_sustraction fft_size_2 spectrum noise_thresholds Gk k ≤ 1) ∧
    (0 ≤ spectral_gating fft_size_2 spectrum noise_thresholds Gk k ∧
      spectral_gating fft_size_2 spectrum noise_thresholds Gk k ≤ 1) ∧
    (0 ≤ wideband_gating fft_size_2 spectrum noise_thresholds Gk k ∧
      wideband_gating fft_size_2 spectrum noise_thresholds Gk k ≤ 1) ∧
    (spectrum k = 0 → FLT_MIN < noise_thresholds k →
      nonlinear_power_sustraction snr_influence fft_size_2 spectrum noise_thresholds Gk k = 0 ∧
      power_sustraction fft_size_2 spectrum noise_thresholds Gk k = 0 ∧
      spectral_gating fft_size_2 spectrum noise_thresholds Gk k = 0) := by
  refine ⟨?_, ?_, ?_, ?_, ?_⟩
  · unfold nonlinear_power_sustraction
    rw [if_pos hk]
    exact nonlinear_gain_mem_Icc _ _ _
  · unfold power_sustraction
    rw [if_pos hk]
    exact power_sustraction_gain_mem_Icc _ _
  · unfold spectral_gating
    rw [if_pos hk]
    exact spectral_gating_gain_mem_Icc _ _
  · unfold wideband_gating
    rw [if_pos hk]
    split
    · split <;> norm_num
    · norm_num
  · intro hs hn
    refine ⟨?_, ?_, ?_⟩
    · unfold nonlinear_power_sustraction
      rw [if_pos hk, hs]
      exact nonlinear_gain_zero_signal hn
    · unfold power_sustraction
      rw [if_pos hk, hs]
      exact power_sustraction_gain_zero_signal hn
    · unfold spectral_gating
      rw [if_pos hk, hs]
      exact spectral_gating_gain_zero_signal hn

/-- Witness for C2: concrete instance, spectrum 0 and threshold 1 at the
single bin of the loop range. -/
theorem C2_witness :
    (0 ≤ nonlinear_power_sustraction 0 0 (fun _ : ℕ => (0:ℝ)) (fun _ : ℕ => (1:ℝ))
        (fun _ : ℕ => (0:ℝ)) 0 ∧
      nonlinear_power_sustraction 0 0 (fun _ : ℕ => (0:ℝ)) (fun _ : ℕ => (1:ℝ))
        (fun _ : ℕ => (0:ℝ)) 0 ≤ 1) ∧
    power_sustraction 0 (fun _ : ℕ => (0:ℝ)) (fun _ : ℕ => (1:ℝ))
      (fun _ : ℕ => (0:ℝ)) 0 = 0 := by
  have h := C2_gain_bounds 0 0 0 (fun _ : ℕ => (0:ℝ)) (fun _ : ℕ => (1:ℝ))
    (fun _ : ℕ => (0:ℝ)) le_rfl
  exact ⟨h.1, (h.2.2.2.2 rfl FLT_MIN_lt_one).2.1⟩

/-! ## Claim C8 -/

/-- C8: in the nonlinear power subtraction rule, whenever the noise
threshold exceeds FLT_MIN the intermediate gain already lies in [0,1],
neither branch of the sequential clamp fires, and the computed gain equals
the result of clamping the intermediate gain directly to [0,1]. -/
theorem C8_clamp_equivalence (snr_influence s n : ℝ) (hn : FLT_MIN < n) :
    0 ≤ nonlinear_intermediate_gain snr_influence s n ∧
    nonlinear_intermediate_gain snr_influence s n ≤ 1 ∧
    ¬(1 - nonlinear_intermediate_gain snr_influence s n < 0) ∧
    ¬(1 - nonlinear_intermediate_gain snr_influence s n > 1) ∧
    nonlinear_gain snr_influence s n =
      max 0 (min 1 (nonlinear_intermediate_gain snr_influence s n)) ∧
    nonlinear_gain snr_influence s n = nonlinear_intermediate_gain snr_influence s n := by
  have h0 := nonlinear_intermediate_gain_nonneg snr_influence s n
  have h1 := nonlinear_intermediate_gain_le_one snr_influence s
      (le_trans (le_of_lt FLT_MIN_pos) (le_of_lt hn))
  have heq := @nonlinear_gain_eq_intermediate snr_influence s n hn
  refine ⟨h0, h1, by linarith, by linarith, ?_, heq⟩
  rw [heq, min_eq_right h1, max_eq_right h0]

/-- Witness for C8: concrete instance with spectrum 1 and threshold 1. -/
theorem C8_witness :
    nonlinear_gain 0 1 1 = nonlinear_intermediate_gain 0 1 1 ∧
    nonlinear_gain 0 1 1 = max 0 (min 1 (nonlinear_intermediate_gain 0 1 1)) := by
  have h := C8_clamp_equivalence 0 1 1 FLT_MIN_lt_one
  exact ⟨h.2.2.2.2.2, h.2.2.2.2.1⟩

/-! ## Transient detector (src/src/transient_detector.c) -/

def TP_UPPER_LIMIT : ℝ := 5

/-- State of the transient detector.  `window_count` is a C float
incremented by 1 each call; `transient_present` is set at construction and
never consulted by `transient_detector_run`. -/
structure TransientDetector where
  fft_size : ℕ
  half_fft_size : ℕ
  spectrum : ℕ → ℝ
  previous_spectrum : ℕ → ℝ
  rolling_mean : ℝ
  transient_present : Bool
  window_count : ℝ

/-- `spectral_flux`: sum over bins 1..half_fft_size of the half-wave
rectified difference `(temp + fabsf(temp)) / 2` of the magnitudes
`sqrtf(spectrum[i])` and `sqrtf(spectrum_prev[i])`. -/
def spectral_flux (spectrum spectrum_prev : ℕ → ℝ) (half_fft_size : ℕ) : ℝ :=
  ∑ i ∈ Finset.Icc 1 half_fft_size,
    ((Real.sqrt (spectrum i) - Real.sqrt (spectrum_prev i)) +
      |Real.sqrt (spectrum i) - Real.sqrt (spectrum_prev i)|) / 2

/-- `transient_detector_run`: computes the flux, increments the window
count, updates the rolling mean (seed on first window, incremental mean
afterwards), copies the current spectrum over the previous one
(entries 0..half_fft_size, the allocated length), and returns whether the
flux exceeds `(TP_UPPER_LIMIT - transient_threshold) * rolling_mean`. -/
def transient_detector_run (self : TransientDetector) (transient_threshold : ℝ) :
    TransientDetector × Bool :=
  let reduction_function :=
    spectral_flux self.spectrum self.previous_spectrum self.half_fft_size
  let window_count := self.window_count + 1
  let rolling_mean :=
    if window_count > 1 then
      self.rolling_mean + (reduction_function - self.rolling_mean) / window_count
    else reduction_function
  let adapted_threshold := (TP_UPPER_LIMIT - transient_threshold) * rolling_mean
  ({ self with
      window_count := window_count
      rolling_mean := rolling_mean
      previous_spectrum := fun k =>
        if k ≤ self.half_fft_size then self.spectrum k else self.previous_spectrum k },
    if reduction_function > adapted_threshold then true else false)

/-! ## Claim C5 -/

/-- C5: for a detector whose window count equals the number `n` of calls
so far, one `detect` call computes flux = sum over bins 1..halfSize of
max(0, sqrt(power) - sqrt(prevPower)); on the first call the mean is set
to the flux and on later calls it becomes mean + (flux - mean)/frameCount
with frameCount = n+1 calls so far; the previous spectrum is replaced by
the current one; and the call returns true iff
flux > (5 - thresholdControl) * updatedMean. -/
theorem C5_transient_detector (self : TransientDetector) (transient_threshold : ℝ)
    (n : ℕ) (hn : self.window_count = (n : ℝ)) :
    spectral_flux self.spectrum self.previous_spectrum self.half_fft_size =
      (∑ i ∈ Finset.Icc 1 self.half_fft_size,
        max 0 (Real.sqrt (self.spectrum i) - Real.sqrt (self.previous_spectrum i))) ∧
    (transient_detector_run self transient_threshold).1.window_count = ((n + 1 : ℕ) : ℝ) ∧
    (n = 0 →
      (transient_detector_run self transient_threshold).1.rolling_mean =
        spectral_flux self.spectrum self.previous_spectrum self.half_fft_size) ∧
    (0 < n →
      (transient_detector_run self transient_threshold).1.rolling_mean =
        self.rolling_mean +
          (spectral_flux self.spectrum self.previous_spectrum self.half_fft_size -
            self.rolling_mean) / ((n + 1 : ℕ) : ℝ)) ∧
    (∀ k ≤ self.half_fft_size,
      (transient_detector_run self transient_threshold).1.previous_spectrum k =
        self.spectrum k) ∧
    ((transient_detector_run self transient_threshold).2 = true ↔
      spectral_flux self.spectrum self.previous_spectrum self.half_fft_size >
        (TP_UPPER_LIMIT - transient_threshold) *
          (transient_detector_run self transient_threshold).1.rolling_mean) := by
  refine ⟨?_, ?_, ?_, ?_, ?_, ?_⟩
  · unfold spectral_flux
    refine Finset.sum_congr rfl fun i _ => ?_
    rcases abs_cases
        (Real.sqrt (self.spectrum i) - Real.sqrt (self.previous_spectrum i)) with
      ⟨h1, h2⟩ | ⟨h1, h2⟩
    · rw [h1, max_eq_right h2]; ring
    · rw [h1, max_eq_left (le_of_lt h2)]; ring
  · simp only [transient_detector_run, hn]
    push_cast
    ring
  · intro h0
    subst h0
    simp only [transient_detector_run, hn]
    norm_num
  · intro hpos
    have hgt : (1:ℝ) < (n : ℝ) + 1 := by
      have : (0:ℝ) < (n : ℝ) := by exact_mod_cast hpos
      linarith
    simp only [transient_detector_run, hn, if_pos hgt]
    push_cast
    ring_nf
  · intro k hk
    simp only [transient_detector_run]
    rw [if_pos hk]
  · simp only [transient_detector_run]
    split <;> rename_i hcond
    · simp [hcond]
    · simp [hcond]

/-- Witness for C5: a detector with halfSize 1, current spectrum constant
1, previous spectrum 0 and window count 0; the first call seeds the mean
with the flux, which evaluates to 1. -/
theorem C5_witness :
    (transient_detector_run
        ⟨2, 1, (fun _ : ℕ => (1:ℝ)), (fun _ : ℕ => (0:ℝ)), 0, false, 0⟩ 0).1.window_count =
      ((1 : ℕ) : ℝ) ∧
    (transient_detector_run
        ⟨2, 1, (fun _ : ℕ => (1:ℝ)), (fun _ : ℕ => (0:ℝ)), 0, false, 0⟩ 0).1.rolling_mean = 1 := by
  have h := C5_transient_detector
    ⟨2, 1, (fun _ : ℕ => (1:ℝ)), (fun _ : ℕ => (0:ℝ)), 0, false, 0⟩ 0 0 (by norm_num)
  refine ⟨h.2.1, ?_⟩
  rw [h.2.2.1 rfl]
  unfold spectral_flux
  simp [Finset.Icc_self]

/-! ## FFT denoiser orchestrator (src/src/fft_denoiser.c)

The gain estimator and noise estimator bodies are not part of the sources
(only their call sites are), so `fft_denoiser_run` is parametric in both:
every theorem below holds for every implementation. -/

def WHITENING_DECAY_RATE : ℝ := 1000

def WHITENING_FLOOR : ℝ := 0.02

/-- The per-frame parameter snapshot: `fft_denoiser_run` dereferences each
parameter pointer once at the start of the frame; we model the snapshot of
values it reads (the three flags already cast to bool). -/
structure DenoiseParameters where
  enable : Bool
  learn_noise : Bool
  residual_listen : Bool
  reduction_amount : ℝ
  release_time : ℝ
  masking_ceiling_limit : ℝ
  whitening_factor : ℝ
  transient_threshold : ℝ
  noise_rescale : ℝ

/-- State of the denoiser.  Arrays are functions from bin index to value;
`noise_profile` is the borrowed profile array behind
`self->noise_profile->noise_profile`, and `noise_available` models the
internal flag `is_noise_estimation_available(self->noise_estimation)`. -/
structure FFTDenoiser where
  fft_size : ℕ
  half_fft_size : ℕ
  samp_rate : ℕ
  hop : ℕ
  fft_spectrum : ℕ → ℝ
  processed_fft_spectrum : ℕ → ℝ
  tau : ℝ
  wet_dry_target : ℝ
  wet_dry : ℝ
  gain_spectrum : ℕ → ℝ
  residual_spectrum : ℕ → ℝ
  denoised_spectrum : ℕ → ℝ
  whitened_residual_spectrum : ℕ → ℝ
  power_spectrum : ℕ → ℝ
  phase_spectrum : ℕ → ℝ
  magnitude_spectrum : ℕ → ℝ
  noise_profile : ℕ → ℝ
  noise_available : Bool
  residual_max_spectrum : ℕ → ℝ
  max_decay_rate : ℝ
  whitening_window_count : ℕ

/-- Modelled from the spec: the noise estimator implementation
(noise_estimator.c is not under src/).  Its `run` updates the profile in
place from the power spectrum and may change the availability flag; we
quantify over an arbitrary function old profile → power → (new profile,
new availability). -/
def NoiseEstFn : Type := (ℕ → ℝ) → (ℕ → ℝ) → (ℕ → ℝ) × Bool

/-- Modelled from the spec: the gain estimator implementation
(gain_estimator.c is not under src/).  `gain_estimation_run` fills the
gain spectrum from the power spectrum, the noise profile and the four
controls (transient protection, masking, release, noise rescale); we
quantify over an arbitrary such function. -/
def GainEstFn : Type :=
  (ℕ → ℝ) → (ℕ → ℝ) → ℝ → ℝ → ℝ → ℝ → (ℕ → ℝ)

/-- Construction (C `fft_denoiser_initialize`): `calloc` zeroes every
array and scalar; `half_fft_size = fft_size / 2` and
`hop = fft_size / overlap_factor` use C integer division; `tau` and
`max_decay_rate` are the two one-pole constants.  The noise profile is a
borrowed reference loaded later; the estimator starts unavailable. -/
def fft_denoiser_init (samp_rate fft_size overlap_factor : ℕ) : FFTDenoiser where
  fft_size := fft_size
  half_fft_size := fft_size / 2
  samp_rate := samp_rate
  hop := fft_size / overlap_factor
  fft_spectrum := fun _ => 0
  processed_fft_spectrum := fun _ => 0
  tau := 1 - Real.exp (-2 * Real.pi * 25 * 64 / (samp_rate : ℝ))
  wet_dry_target := 0
  wet_dry := 0
  gain_spectrum := fun _ => 0
  residual_spectrum := fun _ => 0
  denoised_spectrum := fun _ => 0
  whitened_residual_spectrum := fun _ => 0
  power_spectrum := fun _ => 0
  phase_spectrum := fun _ => 0
  magnitude_spectrum := fun _ => 0
  noise_profile := fun _ => 0
  noise_available := false
  residual_max_spectrum := fun _ => 0
  max_decay_rate :=
    Real.exp (-1000 / (WHITENING_DECAY_RATE * (samp_rate : ℝ) /
      ((fft_size / overlap_factor : ℕ) : ℝ)))
  whitening_window_count := 0

/-- `load_noise_profile`: stores the borrowed profile reference. -/
def load_noise_profile (self : FFTDenoiser) (noise_profile : ℕ → ℝ) : FFTDenoiser :=
  { self with noise_profile := noise_profile }

/-- `from_db_to_cv`: `expf(gain_db / 10.f * logf(10.f))`. -/
def from_db_to_cv (gain_db : ℝ) : ℝ :=
  Real.exp (gain_db / 10 * Real.log 10)

/-- `fft_denoiser_update_wetdry_target`: sets the target from the enable
flag and advances the wet/dry scalar by
`wet_dry += tau * (target - wet_dry) + FLT_MIN`. -/
def fft_denoiser_update_wetdry_target (self : FFTDenoiser) (enable : Bool) : FFTDenoiser :=
  let t : ℝ := if enable then 1 else 0
  { self with
    wet_dry_target := t
    wet_dry := self.wet_dry + self.tau * (t - self.wet_dry) + FLT_MIN }

/-- `fft_denoiser_soft_bypass`: blends processed and raw spectra for bins
1..half_fft_size (bin 0 is never touched). -/
def fft_denoiser_soft_bypass (self : FFTDenoiser) : FFTDenoiser :=
  { self with
    processed_fft_spectrum := fun k =>
      if 1 ≤ k ∧ k ≤ self.half_fft_size then
        (1 - self.wet_dry) * self.fft_spectrum k +
          self.processed_fft_spectrum k * self.wet_dry
      else self.processed_fft_spectrum k }

/-- C `atan2f(y, x)` modelled exactly through the complex argument. -/
def atan2f (y x : ℝ) : ℝ := Complex.arg ⟨x, y⟩

/-- `get_info_from_bins`: fills power, magnitude and phase for bins
0..half_fft_size from the conjugate-packed buffer (bin 0 and bin
half_fft_size are pure real; interior bins pair `fft_buffer[k]` with
`fft_buffer[fft_size - k]`).  Entries beyond half_fft_size keep their
previous contents. -/
def get_info_from_bins (fft_power fft_magnitude fft_phase : ℕ → ℝ)
    (half_fft_size fft_size : ℕ) (fft_buffer : ℕ → ℝ) :
    (ℕ → ℝ) × (ℕ → ℝ) × (ℕ → ℝ) :=
  (fun k =>
    if k ≤ half_fft_size then
      (if k = 0 then fft_buffer 0 * fft_buffer 0
       else if k < half_fft_size then
        fft_buffer k * fft_buffer k +
          fft_buffer (fft_size - k) * fft_buffer (fft_size - k)
       else fft_buffer k * fft_buffer k)
    else fft_power k,
   fun k =>
    if k ≤ half_fft_size then
      (if k = 0 then fft_buffer 0
       else if k < half_fft_size then
        Real.sqrt (fft_buffer k * fft_buffer k +
          fft_buffer (fft_size - k) * fft_buffer (fft_size - k))
       else fft_buffer k)
    else fft_magnitude k,
   fun k =>
    if k ≤ half_fft_size then
      (if k = 0 then atan2f (fft_buffer 0) 0
       else if k < half_fft_size then atan2f (fft_buffer k) (fft_buffer (fft_size - k))
       else atan2f (fft_buffer k) 0)
    else fft_phase k)

/-- `is_empty`: true iff no bin 1..N of the spectrum exceeds FLT_MIN (the
C loop runs k = 1..N with an early false return; bin 0 is not examined). -/
def is_empty (spectrum : ℕ → ℝ) : ℕ → Bool
  | 0 => true
  | N + 1 => if spectrum (N + 1) > FLT_MIN then false else is_empty spectrum N

/-- `get_denoised_spectrum`: denoised = input · gain for bins
1..half_fft_size. -/
def get_denoised_spectrum (self : FFTDenoiser) : FFTDenoiser :=
  { self with
    denoised_spectrum := fun k =>
      if 1 ≤ k ∧ k ≤ self.half_fft_size then
        self.fft_spectrum k * self.gain_spectrum k
      else self.denoised_spectrum k }

/-- `residual_spectrum_whitening`: bumps the window count, updates the
per-bin decaying maximum envelope, then for bins whose residual exceeds
FLT_MIN normalizes the residual by the envelope and blends it with the
whitening factor. -/
def residual_spectrum_whitening (self : FFTDenoiser) (whitening_factor : ℝ) : FFTDenoiser :=
  let count := self.whitening_window_count + 1
  let residual_max : ℕ → ℝ := fun k =>
    if 1 ≤ k ∧ k ≤ self.half_fft_size then
      (if (count : ℝ) > 1 then
        max (max (self.residual_spectrum k) WHITENING_FLOOR)
          (self.residual_max_spectrum k * self.max_decay_rate)
      else max (self.residual_spectrum k) WHITENING_FLOOR)
    else self.residual_max_spectrum k
  let whitened : ℕ → ℝ := fun k =>
    if (1 ≤ k ∧ k ≤ self.half_fft_size) ∧ self.residual_spectrum k > FLT_MIN then
      self.residual_spectrum k / residual_max k
    else self.whitened_residual_spectrum k
  let residual : ℕ → ℝ := fun k =>
    if (1 ≤ k ∧ k ≤ self.half_fft_size) ∧ self.residual_spectrum k > FLT_MIN then
      (1 - whitening_factor) * self.residual_spectrum k + whitening_factor * whitened k
    else self.residual_spectrum k
  { self with
    whitening_window_count := count
    residual_max_spectrum := residual_max
    whitened_residual_spectrum := whitened
    residual_spectrum := residual }

/-- `get_residual_spectrum`: residual = input − denoised for bins
1..half_fft_size, then optional whitening when the factor is positive. -/
def get_residual_spectrum (self : FFTDenoiser) (whitening_factor : ℝ) : FFTDenoiser :=
  let self2 : FFTDenoiser :=
    { self with
      residual_spectrum := fun k =>
        if 1 ≤ k ∧ k ≤ self.half_fft_size then
          self.fft_spectrum k - self.denoised_spectrum k
        else self.residual_spectrum k }
  if whitening_factor > 0 then residual_spectrum_whitening self2 whitening_factor
  else self2

/-- `get_final_spectrum`: for bins 1..half_fft_size, residual listen mode
copies the residual, otherwise processed = denoised + residual ·
reduction_amount.  Bin 0 is never written. -/
def get_final_spectrum (self : FFTDenoiser) (residual_listen : Bool)
    (reduction_amount : ℝ) : FFTDenoiser :=
  if residual_listen then
    { self with
      processed_fft_spectrum := fun k =>
        if 1 ≤ k ∧ k ≤ self.half_fft_size then self.residual_spectrum k
        else self.processed_fft_spectrum k }
  else
    { self with
      processed_fft_spectrum := fun k =>
        if 1 ≤ k ∧ k ≤ self.half_fft_size then
          self.denoised_spectrum k + self.residual_spectrum k * reduction_amount
        else self.processed_fft_spectrum k }

/-- State of the denoiser after the wet/dry update, the input copy
(`memcpy` of `fft_size` floats) and the power/magnitude/phase
decomposition: the part of `fft_denoiser_run` before the emptiness
branch. -/
def fft_denoiser_run_pre (self : FFTDenoiser) (p : DenoiseParameters)
    (frame : ℕ → ℝ) : FFTDenoiser :=
  let self1 := fft_denoiser_update_wetdry_target self p.enable
  let self2 : FFTDenoiser :=
    { self1 with
      fft_spectrum := fun k => if k < self1.fft_size then frame k else self1.fft_spectrum k }
  let info := get_info_from_bins self2.power_spectrum self2.magnitude_spectrum
    self2.phase_spectrum self2.half_fft_size self2.fft_size self2.fft_spectrum
  { self2 with
    power_spectrum := info.1
    magnitude_spectrum := info.2.1
    phase_spectrum := info.2.2 }

/-- The power spectrum `fft_denoiser_run` computes for a given input
frame. -/
def fft_denoiser_frame_power (self : FFTDenoiser) (frame : ℕ → ℝ) : ℕ → ℝ :=
  (get_info_from_bins self.power_spectrum self.magnitude_spectrum self.phase_spectrum
    self.half_fft_size self.fft_size
    (fun k => if k < self.fft_size then frame k else self.fft_spectrum k)).1

/-- State after all pipeline stages of `fft_denoiser_run` (emptiness
guard, learning or gain estimation / denoised / residual / final
spectrum), before the closing soft bypass and output copy.  This is the
"processed output spectrum" of the frame. -/
def fft_denoiser_run_mid (gE : GainEstFn) (nE : NoiseEstFn) (self : FFTDenoiser)
    (p : DenoiseParameters) (frame : ℕ → ℝ) : FFTDenoiser :=
  let reduction_amount := from_db_to_cv (p.reduction_amount * (-1))
  let self3 := fft_denoiser_run_pre self p frame
  if is_empty self3.power_spectrum self3.half_fft_size = false then
    if p.learn_noise then
      let r := nE self3.noise_profile self3.power_spectrum
      { self3 with noise_profile := r.1, noise_available := r.2 }
    else
      if self3.noise_available then
        get_final_spectrum
          (get_residual_spectrum
            (get_denoised_spectrum
              { self3 with
                gain_spectrum := gE self3.power_spectrum self3.noise_profile
                  p.transient_threshold (p.masking_ceiling_limit / 100)
                  p.release_time p.noise_rescale })
            p.whitening_factor)
          p.residual_listen reduction_amount
      else self3
  else self3

/-- `fft_denoiser_run`: full per-frame call, returning the new state and
the mutated caller frame.  The closing
`memcpy(fft_spectrum, processed, sizeof(float) * half_fft_size + 1)`
copies `sizeof(float) * half_fft_size + 1` BYTES — the `+ 1` sits outside
the multiplication — i.e. entries 0..half_fft_size-1 completely plus one
byte of entry half_fft_size.  A real-valued model cannot split a float
into bytes, so the model transfers the fully-copied entries
0..half_fft_size-1 and leaves the caller's entry half_fft_size at its
input value (after the C call its bit pattern is a mix of old and new
bytes, in general neither float value). -/
def fft_denoiser_run (gE : GainEstFn) (nE : NoiseEstFn) (self : FFTDenoiser)
    (p : DenoiseParameters) (frame : ℕ → ℝ) : FFTDenoiser × (ℕ → ℝ) :=
  let self5 := fft_denoiser_soft_bypass (fft_denoiser_run_mid gE nE self p frame)
  (self5,
   fun k => if k < self5.half_fft_size then self5.processed_fft_spectrum k else frame k)

/-! ### Field-preservation lemmas for the pipeline stages -/

theorem get_denoised_spectrum_half (self : FFTDenoiser) :
    (get_denoised_spectrum self).half_fft_size = self.half_fft_size := rfl

theorem get_denoised_spectrum_wet_dry (self : FFTDenoiser) :
    (get_denoised_spectrum self).wet_dry = self.wet_dry := rfl

theorem get_denoised_spectrum_fft (self : FFTDenoiser) :
    (get_denoised_spectrum self).fft_spectrum = self.fft_spectrum := rfl

theorem get_denoised_spectrum_processed (self : FFTDenoiser) :
    (get_denoised_spectrum self).processed_fft_spectrum = self.processed_fft_spectrum := rfl

theorem get_denoised_spectrum_noise_profile (self : FFTDenoiser) :
    (get_denoised_spectrum self).noise_profile = self.noise_profile := rfl

theorem get_residual_spectrum_half (self : FFTDenoiser) (w : ℝ) :
    (get_residual_spectrum self w).half_fft_size = self.half_fft_size := by
  unfold get_residual_spectrum
  split <;> rfl

theorem get_residual_spectrum_wet_dry (self : FFTDenoiser) (w : ℝ) :
    (get_residual_spectrum self w).wet_dry = self.wet_dry := by
  unfold get_residual_spectrum
  split <;> rfl

theorem get_residual_spectrum_fft (self : FFTDenoiser) (w : ℝ) :
    (get_residual_spectrum self w).fft_spectrum = self.fft_spectrum := by
  unfold get_residual_spectrum
  split <;> rfl

theorem get_residual_spectrum_processed (self : FFTDenoiser) (w : ℝ) :
    (get_residual_spectrum self w).processed_fft_spectrum = self.processed_fft_spectrum := by
  unfold get_residual_spectrum
  split <;> rfl

theorem get_residual_spectrum_noise_profile (self : FFTDenoiser) (w : ℝ) :
    (get_residual_spectrum self w).noise_profile = self.noise_profile := by
  unfold get_residual_spectrum
  split <;> rfl

theorem get_final_spectrum_half (self : FFTDenoiser) (rl : Bool) (ra : ℝ) :
    (get_final_spectrum self rl ra).half_fft_size = self.half_fft_size := by
  unfold get_final_spectrum
  split <;> rfl

theorem get_final_spectrum_wet_dry (self : FFTDenoiser) (rl : Bool) (ra : ℝ) :
    (get_final_spectrum self rl ra).wet_dry = self.wet_dry := by
  unfold get_final_spectrum
  split <;> rfl

theorem get_final_spectrum_fft (self : FFTDenoiser) (rl : Bool) (ra : ℝ) :
    (get_final_spectrum self rl ra).fft_spectrum = self.fft_spectrum := by
  unfold get_final_spectrum
  split <;> rfl

theorem get_final_spectrum_noise_profile (self : FFTDenoiser) (rl : Bool) (ra : ℝ) :
    (get_final_spectrum self rl ra).noise_profile = self.noise_profile := by
  unfold get_final_spectrum
  split <;> rfl

theorem get_final_spectrum_denoised (self : FFTDenoiser) (rl : Bool) (ra : ℝ) :
    (get_final_spectrum self rl ra).denoised_spectrum = self.denoised_spectrum := by
  unfold get_final_spectrum
  split <;> rfl

theorem get_final_spectrum_residual (self : FFTDenoiser) (rl : Bool) (ra : ℝ) :
    (get_final_spectrum self rl ra).residual_spectrum = self.residual_spectrum := by
  unfold get_final_spectrum
  split <;> rfl

theorem get_final_spectrum_processed_listen (self : FFTDenoiser) (ra : ℝ)
    (k : ℕ) (h1 : 1 ≤ k) (h2 : k ≤ self.half_fft_size) :
    (get_final_spectrum self true ra).processed_fft_spectrum k =
      self.residual_spectrum k := by
  show (if 1 ≤ k ∧ k ≤ self.half_fft_size then self.residual_spectrum k
    else self.processed_fft_spectrum k) = self.residual_spectrum k
  rw [if_pos ⟨h1, h2⟩]

theorem get_final_spectrum_processed_off (self : FFTDenoiser) (ra : ℝ)
    (k : ℕ) (h1 : 1 ≤ k) (h2 : k ≤ self.half_fft_size) :
    (get_final_spectrum self false ra).processed_fft_spectrum k =
      self.denoised_spectrum k + self.residual_spectrum k * ra := by
  show (if 1 ≤ k ∧ k ≤ self.half_fft_size then
      self.denoised_spectrum k + self.residual_spectrum k * ra
    else self.processed_fft_spectrum k) =
      self.denoised_spectrum k + self.residual_spectrum k * ra
  rw [if_pos ⟨h1, h2⟩]

theorem get_final_spectrum_processed_zero (self : FFTDenoiser) (rl : Bool) (ra : ℝ) :
    (get_final_spectrum self rl ra).processed_fft_spectrum 0 =
      self.processed_fft_spectrum 0 := by
  cases rl
  · show (if 1 ≤ 0 ∧ 0 ≤ self.half_fft_size then
        self.denoised_spectrum 0 + self.residual_spectrum 0 * ra
      else self.processed_fft_spectrum 0) = self.processed_fft_spectrum 0
    rw [if_neg (by simp)]
  · show (if 1 ≤ 0 ∧ 0 ≤ self.half_fft_size then self.residual_spectrum 0
      else self.processed_fft_spectrum 0) = self.processed_fft_spectrum 0
    rw [if_neg (by simp)]

theorem fft_denoiser_soft_bypass_half (self : FFTDenoiser) :
    (fft_denoiser_soft_bypass self).half_fft_size = self.half_fft_size := rfl

theorem fft_denoiser_soft_bypass_wet_dry (self : FFTDenoiser) :
    (fft_denoiser_soft_bypass self).wet_dry = self.wet_dry := rfl

theorem fft_denoiser_soft_bypass_noise_profile (self : FFTDenoiser) :
    (fft_denoiser_soft_bypass self).noise_profile = self.noise_profile := rfl

theorem fft_denoiser_soft_bypass_processed (self : FFTDenoiser) (k : ℕ)
    (h1 : 1 ≤ k) (h2 : k ≤ self.half_fft_size) :
    (fft_denoiser_soft_bypass self).processed_fft_spectrum k =
      (1 - self.wet_dry) * self.fft_spectrum k +
        self.processed_fft_spectrum k * self.wet_dry := by
  show (if 1 ≤ k ∧ k ≤ self.half_fft_size then
      (1 - self.wet_dry) * self.fft_spectrum k + self.processed_fft_spectrum k * self.wet_dry
    else self.processed_fft_spectrum k) =
      (1 - self.wet_dry) * self.fft_spectrum k + self.processed_fft_spectrum k * self.wet_dry
  rw [if_pos ⟨h1, h2⟩]

theorem fft_denoiser_soft_bypass_processed_zero (self : FFTDenoiser) :
    (fft_denoiser_soft_bypass self).processed_fft_spectrum 0 =
      self.processed_fft_spectrum 0 := by
  show (if 1 ≤ 0 ∧ 0 ≤ self.half_fft_size then
      (1 - self.wet_dry) * self.fft_spectrum 0 + self.processed_fft_spectrum 0 * self.wet_dry
    else self.processed_fft_spectrum 0) = self.processed_fft_spectrum 0
  rw [if_neg (by simp)]

/-! ### Projections of the pre-branch state -/

theorem fft_denoiser_run_pre_power (self : FFTDenoiser) (p : DenoiseParameters)
    (frame : ℕ → ℝ) :
    (fft_denoiser_run_pre self p frame).power_spectrum =
      fft_denoiser_frame_power self frame := rfl

theorem fft_denoiser_run_pre_half (self : FFTDenoiser) (p : DenoiseParameters)
    (frame : ℕ → ℝ) :
    (fft_denoiser_run_pre self p frame).half_fft_size = self.half_fft_size := rfl

theorem fft_denoiser_run_pre_wet_dry (self : FFTDenoiser) (p : DenoiseParameters)
    (frame : ℕ → ℝ) :
    (fft_denoiser_run_pre self p frame).wet_dry =
      (fft_denoiser_update_wetdry_target self p.enable).wet_dry := rfl

theorem fft_denoiser_run_pre_fft (self : FFTDenoiser) (p : DenoiseParameters)
    (frame : ℕ → ℝ) :
    (fft_denoiser_run_pre self p frame).fft_spectrum =
      fun k => if k < self.fft_size then frame k else self.fft_spectrum k := rfl

theorem fft_denoiser_run_pre_processed (self : FFTDenoiser) (p : DenoiseParameters)
    (frame : ℕ → ℝ) :
    (fft_denoiser_run_pre self p frame).processed_fft_spectrum =
      self.processed_fft_spectrum := rfl

theorem fft_denoiser_run_pre_noise_profile (self : FFTDenoiser) (p : DenoiseParameters)
    (frame : ℕ → ℝ) :
    (fft_denoiser_run_pre self p frame).noise_profile = self.noise_profile := rfl

theorem fft_denoiser_run_pre_noise_available (self : FFTDenoiser) (p : DenoiseParameters)
    (frame : ℕ → ℝ) :
    (fft_denoiser_run_pre self p frame).noise_available = self.noise_available := rfl

theorem fft_denoiser_run_pre_gain (self : FFTDenoiser) (p : DenoiseParameters)
    (frame : ℕ → ℝ) :
    (fft_denoiser_run_pre self p frame).gain_spectrum = self.gain_spectrum := rfl

theorem fft_denoiser_run_pre_denoised (self : FFTDenoiser) (p : DenoiseParameters)
    (frame : ℕ → ℝ) :
    (fft_denoiser_run_pre self p frame).denoised_spectrum = self.denoised_spectrum := rfl

theorem fft_denoiser_run_pre_residual (self : FFTDenoiser) (p : DenoiseParameters)
    (frame : ℕ → ℝ) :
    (fft_denoiser_run_pre self p frame).residual_spectrum = self.residual_spectrum := rfl

/-! ### Branch characterizations of the pipeline -/

theorem fft_denoiser_run_mid_empty (gE : GainEstFn) (nE : NoiseEstFn)
    (self : FFTDenoiser) (p : DenoiseParameters) (frame : ℕ → ℝ)
    (h : is_empty (fft_denoiser_frame_power self frame) self.half_fft_size = true) :
    fft_denoiser_run_mid gE nE self p frame = fft_denoiser_run_pre self p frame := by
  have h' : is_empty (fft_denoiser_run_pre self p frame).power_spectrum
      (fft_denoiser_run_pre self p frame).half_fft_size = true := h
  unfold fft_denoiser_run_mid
  rw [if_neg (by simp [h'])]

theorem fft_denoiser_run_mid_gain_branch (gE : GainEstFn) (nE : NoiseEstFn)
    (self : FFTDenoiser) (p : DenoiseParameters) (frame : ℕ → ℝ)
    (hne : is_empty (fft_denoiser_frame_power self frame) self.half_fft_size = false)
    (hlearn : p.learn_noise = false) (havail : self.noise_available = true) :
    fft_denoiser_run_mid gE nE self p frame =
      get_final_spectrum
        (get_residual_spectrum
          (get_denoised_spectrum
            { fft_denoiser_run_pre self p frame with
              gain_spectrum := gE (fft_denoiser_frame_power self frame) self.noise_profile
                p.transient_threshold (p.masking_ceiling_limit / 100)
                p.release_time p.noise_rescale })
          p.whitening_factor)
        p.residual_listen (from_db_to_cv (p.reduction_amount * (-1))) := by
  have hne' : is_empty (fft_denoiser_run_pre self p frame).power_spectrum
      (fft_denoiser_run_pre self p frame).half_fft_size = false := hne
  have havail' : (fft_denoiser_run_pre self p frame).noise_available = true := havail
  simp only [fft_denoiser_run_mid]
  rw [if_pos hne', hlearn]
  rw [if_neg (by simp), if_pos havail']
  rfl

theorem fft_denoiser_run_mid_half (gE : GainEstFn) (nE : NoiseEstFn)
    (self : FFTDenoiser) (p : DenoiseParameters) (frame : ℕ → ℝ) :
    (fft_denoiser_run_mid gE nE self p frame).half_fft_size = self.half_fft_size := by
  simp only [fft_denoiser_run_mid]
  split
  · split
    · rfl
    · split
      · rw [get_final_spectrum_half, get_residual_spectrum_half]
        rfl
      · rfl
  · rfl

theorem fft_denoiser_run_mid_wet_dry (gE : GainEstFn) (nE : NoiseEstFn)
    (self : FFTDenoiser) (p : DenoiseParameters) (frame : ℕ → ℝ) :
    (fft_denoiser_run_mid gE nE self p frame).wet_dry =
      (fft_denoiser_update_wetdry_target self p.enable).wet_dry := by
  simp only [fft_denoiser_run_mid]
  split
  · split
    · rfl
    · split
      · rw [get_final_spectrum_wet_dry, get_residual_spectrum_wet_dry]
        rfl
      · rfl
  · rfl

theorem fft_denoiser_run_mid_fft (gE : GainEstFn) (nE : NoiseEstFn)
    (self : FFTDenoiser) (p : DenoiseParameters) (frame : ℕ → ℝ) :
    (fft_denoiser_run_mid gE nE self p frame).fft_spectrum =
      fun k => if k < self.fft_size then frame k else self.fft_spectrum k := by
  simp only [fft_denoiser_run_mid]
  split
  · split
    · rfl
    · split
      · rw [get_final_spectrum_fft, get_residual_spectrum_fft]
        rfl
      · rfl
  · rfl

theorem fft_denoiser_run_mid_processed_zero (gE : GainEstFn) (nE : NoiseEstFn)
    (self : FFTDenoiser) (p : DenoiseParameters) (frame : ℕ → ℝ) :
    (fft_denoiser_run_mid gE nE self p frame).processed_fft_spectrum 0 =
      self.processed_fft_spectrum 0 := by
  simp only [fft_denoiser_run_mid]
  split
  · split
    · rfl
    · split
      · rw [get_final_spectrum_processed_zero]
        rw [show (get_residual_spectrum _ _).processed_fft_spectrum =
          (get_denoised_spectrum _).processed_fft_spectrum from
            get_residual_spectrum_processed _ _]
        rfl
      · rfl
  · rfl

theorem fft_denoiser_run_fst (gE : GainEstFn) (nE : NoiseEstFn)
    (self : FFTDenoiser) (p : DenoiseParameters) (frame : ℕ → ℝ) :
    (fft_denoiser_run gE nE self p frame).1 =
      fft_denoiser_soft_bypass (fft_denoiser_run_mid gE nE self p frame) := rfl

theorem fft_denoiser_run_out (gE : GainEstFn) (nE : NoiseEstFn)
    (self : FFTDenoiser) (p : DenoiseParameters) (frame : ℕ → ℝ)
    (k : ℕ) (hk : k < self.half_fft_size) :
    (fft_denoiser_run gE nE self p frame).2 k =
      (fft_denoiser_soft_bypass
        (fft_denoiser_run_mid gE nE self p frame)).processed_fft_spectrum k := by
  have hk' : k < (fft_denoiser_soft_bypass
      (fft_denoiser_run_mid gE nE self p frame)).half_fft_size := by
    rw [fft_denoiser_soft_bypass_half, fft_denoiser_run_mid_half]
    exact hk
  show (if k < (fft_denoiser_soft_bypass
      (fft_denoiser_run_mid gE nE self p frame)).half_fft_size then _ else _) = _
  rw [if_pos hk']

theorem is_empty_eq_true_of (spectrum : ℕ → ℝ) (N : ℕ)
    (h : ∀ k, 1 ≤ k → k ≤ N → spectrum k ≤ FLT_MIN) :
    is_empty spectrum N = true := by
  induction N with
  | zero => rfl
  | succ n ih =>
    show (if spectrum (n + 1) > FLT_MIN then false else is_empty spectrum n) = true
    rw [if_neg (not_lt.mpr (h (n + 1) (by omega) le_rfl))]
    exact ih fun k h1 h2 => h k h1 (by omega)

theorem get_residual_spectrum_denoised (self : FFTDenoiser) (w : ℝ) :
    (get_residual_spectrum self w).denoised_spectrum = self.denoised_spectrum := by
  unfold get_residual_spectrum
  split <;> rfl

theorem get_denoised_spectrum_apply (self : FFTDenoiser) (k : ℕ)
    (h1 : 1 ≤ k) (h2 : k ≤ self.half_fft_size) :
    (get_denoised_spectrum self).denoised_spectrum k =
      self.fft_spectrum k * self.gain_spectrum k := by
  show (if 1 ≤ k ∧ k ≤ self.half_fft_size then self.fft_spectrum k * self.gain_spectrum k
    else self.denoised_spectrum k) = self.fft_spectrum k * self.gain_spectrum k
  rw [if_pos ⟨h1, h2⟩]

theorem get_residual_spectrum_apply_nowhitening (self : FFTDenoiser) (k : ℕ)
    (h1 : 1 ≤ k) (h2 : k ≤ self.half_fft_size) :
    (get_residual_spectrum self 0).residual_spectrum k =
      self.fft_spectrum k - self.denoised_spectrum k := by
  unfold get_residual_spectrum
  rw [if_neg (by norm_num)]
  show (if 1 ≤ k ∧ k ≤ self.half_fft_size then
      self.fft_spectrum k - self.denoised_spectrum k
    else self.residual_spectrum k) = self.fft_spectrum k - self.denoised_spectrum k
  rw [if_pos ⟨h1, h2⟩]

/-! ## Claim C6 -/

/-- C6: a frame whose computed power spectrum is at or below FLT_MIN at
every bin up to halfSize makes `fft_denoiser_run` skip both noise
estimation and the whole gain/suppression chain: the noise profile, gain,
denoised and residual spectra are unchanged, and the frame's processed
spectrum entering the closing soft bypass is the one left from before the
call. -/
theorem C6_empty_frame_skips_pipeline (gE : GainEstFn) (nE : NoiseEstFn)
    (self : FFTDenoiser) (p : DenoiseParameters) (frame : ℕ → ℝ)
    (h : ∀ k, k ≤ self.half_fft_size → fft_denoiser_frame_power self frame k ≤ FLT_MIN) :
    (fft_denoiser_run gE nE self p frame).1.noise_profile = self.noise_profile ∧
    (fft_denoiser_run gE nE self p frame).1.gain_spectrum = self.gain_spectrum ∧
    (fft_denoiser_run gE nE self p frame).1.denoised_spectrum = self.denoised_spectrum ∧
    (fft_denoiser_run gE nE self p frame).1.residual_spectrum = self.residual_spectrum ∧
    (fft_denoiser_run_mid gE nE self p frame).processed_fft_spectrum =
      self.processed_fft_spectrum := by
  have he : is_empty (fft_denoiser_frame_power self frame) self.half_fft_size = true :=
    is_empty_eq_true_of _ _ fun k _ h2 => h k h2
  have hmid := fft_denoiser_run_mid_empty gE nE self p frame he
  rw [fft_denoiser_run_fst]
  refine ⟨?_, ?_, ?_, ?_, ?_⟩ <;> rw [hmid] <;> rfl

/-- Witness for C6: the all-zero frame on a freshly constructed denoiser
leaves the noise profile and the processed spectrum untouched. -/
theorem C6_witness :
    (fft_denoiser_run (fun _ _ _ _ _ _ => fun _ => 0) (fun np _ => (np, true))
      (fft_denoiser_init 44100 4 2)
      ⟨true, true, false, 0, 0, 0, 0, 0, 0⟩ (fun _ : ℕ => (0:ℝ))).1.noise_profile =
      (fft_denoiser_init 44100 4 2).noise_profile ∧
    (fft_denoiser_run_mid (fun _ _ _ _ _ _ => fun _ => 0) (fun np _ => (np, true))
      (fft_denoiser_init 44100 4 2)
      ⟨true, true, false, 0, 0, 0, 0, 0, 0⟩ (fun _ : ℕ => (0:ℝ))).processed_fft_spectrum =
      (fft_denoiser_init 44100 4 2).processed_fft_spectrum := by
  have h := C6_empty_frame_skips_pipeline (fun _ _ _ _ _ _ => fun _ => 0)
    (fun np _ => (np, true)) (fft_denoiser_init 44100 4 2)
    ⟨true, true, false, 0, 0, 0, 0, 0, 0⟩ (fun _ : ℕ => (0:ℝ)) ?_
  · exact ⟨h.1, h.2.2.2.2⟩
  · intro k hk
    unfold fft_denoiser_frame_power get_info_from_bins fft_denoiser_init
    simp only
    split_ifs <;> norm_num [FLT_MIN_pos.le]

/-! ## Claim C10 -/

/-- C10: entry 0 of the output frame is exactly 0 after every call: the
processed spectrum's entry 0 is zero at construction, no pipeline stage
ever writes it (all loops start at bin 1), and the closing copy transfers
it into the caller frame. -/
theorem C10_dc_bin_zero (samp_rate fft_size overlap_factor : ℕ)
    (gE : GainEstFn) (nE : NoiseEstFn) (self : FFTDenoiser) (p : DenoiseParameters)
    (frame : ℕ → ℝ) (h0 : self.processed_fft_spectrum 0 = 0)
    (hh : 0 < self.half_fft_size) :
    (fft_denoiser_init samp_rate fft_size overlap_factor).processed_fft_spectrum 0 = 0 ∧
    (fft_denoiser_run gE nE self p frame).2 0 = 0 ∧
    (fft_denoiser_run gE nE self p frame).1.processed_fft_spectrum 0 = 0 := by
  have hmid0 := fft_denoiser_run_mid_processed_zero gE nE self p frame
  have hsb := fft_denoiser_soft_bypass_processed_zero
    (fft_denoiser_run_mid gE nE self p frame)
  refine ⟨rfl, ?_, ?_⟩
  · rw [fft_denoiser_run_out gE nE self p frame 0 hh, hsb, hmid0, h0]
  · rw [fft_denoiser_run_fst, hsb, hmid0, h0]

/-- Witness for C10: a freshly constructed denoiser fed an all-ones frame
returns 0 at bin 0 of the output. -/
theorem C10_witness :
    (fft_denoiser_run (fun _ _ _ _ _ _ => fun _ => 0) (fun np _ => (np, true))
      (fft_denoiser_init 44100 4 2)
      ⟨true, false, false, 0, 0, 0, 0, 0, 0⟩ (fun _ : ℕ => (1:ℝ))).2 0 = 0 := by
  exact (C10_dc_bin_zero 44100 4 2 (fun _ _ _ _ _ _ => fun _ => 0) (fun np _ => (np, true))
    (fft_denoiser_init 44100 4 2) ⟨true, false, false, 0, 0, 0, 0, 0, 0⟩
    (fun _ : ℕ => (1:ℝ)) rfl (by norm_num [fft_denoiser_init])).2.1

theorem fft_denoiser_run_mid_fft_apply (gE : GainEstFn) (nE : NoiseEstFn)
    (self : FFTDenoiser) (p : DenoiseParameters) (frame : ℕ → ℝ) (k : ℕ) :
    (fft_denoiser_run_mid gE nE self p frame).fft_spectrum k =
      if k < self.fft_size then frame k else self.fft_spectrum k := by
  rw [fft_denoiser_run_mid_fft]

/-! ## Claim C3 -/

/-- C3 (amended): for interior bins 1 ≤ k < halfSize the output frame
entry is the wet/dry blend of the raw input and the frame's processed
spectrum, using the wet/dry state updated at the start of the call; bin 0
instead receives the processed spectrum's entry 0 unblended, because the
blend loop starts at bin 1.  Entry halfSize is excluded: the closing
memcpy's byte count is `sizeof(float) * halfSize + 1` (the `+ 1` is
outside the multiplication), which covers that entry only partially. -/
theorem C3_wet_dry_blend (gE : GainEstFn) (nE : NoiseEstFn) (self : FFTDenoiser)
    (p : DenoiseParameters) (frame : ℕ → ℝ) (k : ℕ)
    (hfit : self.half_fft_size ≤ self.fft_size)
    (h1 : 1 ≤ k) (h2 : k < self.half_fft_size) :
    (fft_denoiser_run gE nE self p frame).2 k =
      (1 - (fft_denoiser_run gE nE self p frame).1.wet_dry) * frame k +
        (fft_denoiser_run gE nE self p frame).1.wet_dry *
          (fft_denoiser_run_mid gE nE self p frame).processed_fft_spectrum k ∧
    (fft_denoiser_run gE nE self p frame).2 0 =
      (fft_denoiser_run_mid gE nE self p frame).processed_fft_spectrum 0 := by
  have hwd : (fft_denoiser_run gE nE self p frame).1.wet_dry =
      (fft_denoiser_run_mid gE nE self p frame).wet_dry := by
    rw [fft_denoiser_run_fst, fft_denoiser_soft_bypass_wet_dry]
  constructor
  · rw [fft_denoiser_run_out gE nE self p frame k h2]
    rw [fft_denoiser_soft_bypass_processed _ k h1
      (by rw [fft_denoiser_run_mid_half]; omega)]
    rw [hwd, fft_denoiser_run_mid_fft_apply, if_pos (lt_of_lt_of_le h2 hfit)]
    ring
  · rw [fft_denoiser_run_out gE nE self p frame 0 (by omega),
      fft_denoiser_soft_bypass_processed_zero]

/-- C3 counterexample: on a fresh denoiser (fft_size 4, halfSize 2, all
working arrays zero) fed the frame (1, 0, 0, 0) with the processor
disabled, the output's entry 0 is 0 while the claimed blend
(1 − wetDry)·1 + wetDry·0 = 1 − FLT_MIN is nonzero: bin 0 is never
blended. -/
theorem C3_counterexample :
    (fft_denoiser_run (fun _ _ _ _ _ _ => fun _ => 0) (fun np _ => (np, true))
      (fft_denoiser_init 44100 4 2) ⟨false, false, false, 0, 0, 0, 0, 0, 0⟩
      (fun k : ℕ => if k = 0 then (1:ℝ) else 0)).2 0 = 0 ∧
    (1 - (fft_denoiser_run (fun _ _ _ _ _ _ => fun _ => 0) (fun np _ => (np, true))
        (fft_denoiser_init 44100 4 2) ⟨false, false, false, 0, 0, 0, 0, 0, 0⟩
        (fun k : ℕ => if k = 0 then (1:ℝ) else 0)).1.wet_dry) *
        (fun k : ℕ => if k = 0 then (1:ℝ) else 0) 0 +
      (fft_denoiser_run (fun _ _ _ _ _ _ => fun _ => 0) (fun np _ => (np, true))
        (fft_denoiser_init 44100 4 2) ⟨false, false, false, 0, 0, 0, 0, 0, 0⟩
        (fun k : ℕ => if k = 0 then (1:ℝ) else 0)).1.wet_dry *
        (fft_denoiser_run_mid (fun _ _ _ _ _ _ => fun _ => 0) (fun np _ => (np, true))
          (fft_denoiser_init 44100 4 2) ⟨false, false, false, 0, 0, 0, 0, 0, 0⟩
          (fun k : ℕ => if k = 0 then (1:ℝ) else 0)).processed_fft_spectrum 0 ≠ 0 := by
  have hmid0 := fft_denoiser_run_mid_processed_zero (fun _ _ _ _ _ _ => fun _ => 0)
    (fun np _ => (np, true)) (fft_denoiser_init 44100 4 2)
    ⟨false, false, false, 0, 0, 0, 0, 0, 0⟩ (fun k : ℕ => if k = 0 then (1:ℝ) else 0)
  have hzero : (fft_denoiser_init 44100 4 2).processed_fft_spectrum 0 = 0 := rfl
  have hwd : (fft_denoiser_run (fun _ _ _ _ _ _ => fun _ => 0) (fun np _ => (np, true))
      (fft_denoiser_init 44100 4 2) ⟨false, false, false, 0, 0, 0, 0, 0, 0⟩
      (fun k : ℕ => if k = 0 then (1:ℝ) else 0)).1.wet_dry = FLT_MIN := by
    rw [fft_denoiser_run_fst, fft_denoiser_soft_bypass_wet_dry,
      fft_denoiser_run_mid_wet_dry]
    simp [fft_denoiser_update_wetdry_target, fft_denoiser_init]
  constructor
  · rw [fft_denoiser_run_out _ _ _ _ _ 0 (by norm_num [fft_denoiser_init]),
      fft_denoiser_soft_bypass_processed_zero, hmid0, hzero]
  · rw [hwd, hmid0, hzero]
    have h1 := FLT_MIN_lt_one
    intro hc
    norm_num at hc
    linarith

/-- Witness for C3: the amended blend equation instantiated on a concrete
call (fresh denoiser, fft_size 4, bin 1). -/
theorem C3_witness :
    (fft_denoiser_run (fun _ _ _ _ _ _ => fun _ => 0) (fun np _ => (np, true))
      (fft_denoiser_init 48000 4 2) ⟨true, false, false, 0, 0, 0, 0, 0, 0⟩
      (fun _ : ℕ => (1:ℝ))).2 1 =
      (1 - (fft_denoiser_run (fun _ _ _ _ _ _ => fun _ => 0) (fun np _ => (np, true))
        (fft_denoiser_init 48000 4 2) ⟨true, false, false, 0, 0, 0, 0, 0, 0⟩
        (fun _ : ℕ => (1:ℝ))).1.wet_dry) * (fun _ : ℕ => (1:ℝ)) 1 +
      (fft_denoiser_run (fun _ _ _ _ _ _ => fun _ => 0) (fun np _ => (np, true))
        (fft_denoiser_init 48000 4 2) ⟨true, false, false, 0, 0, 0, 0, 0, 0⟩
        (fun _ : ℕ => (1:ℝ))).1.wet_dry *
        (fft_denoiser_run_mid (fun _ _ _ _ _ _ => fun _ => 0) (fun np _ => (np, true))
          (fft_denoiser_init 48000 4 2) ⟨true, false, false, 0, 0, 0, 0, 0, 0⟩
          (fun _ : ℕ => (1:ℝ))).processed_fft_spectrum 1 := by
  exact (C3_wet_dry_blend (fun _ _ _ _ _ _ => fun _ => 0) (fun np _ => (np, true))
    (fft_denoiser_init 48000 4 2) ⟨true, false, false, 0, 0, 0, 0, 0, 0⟩
    (fun _ : ℕ => (1:ℝ)) 1 (by norm_num [fft_denoiser_init]) le_rfl
    (by norm_num [fft_denoiser_init])).1

/-! ## Claim C7 -/

theorem fft_denoiser_update_wetdry_target_wet_dry (self : FFTDenoiser) (enable : Bool) :
    (fft_denoiser_update_wetdry_target self enable).wet_dry =
      self.wet_dry + self.tau * ((if enable then (1:ℝ) else 0) - self.wet_dry) +
        FLT_MIN := rfl

theorem fft_denoiser_update_wetdry_target_tau (self : FFTDenoiser) (enable : Bool) :
    (fft_denoiser_update_wetdry_target self enable).tau = self.tau := rfl

/-- C7 counterexample: starting from a fresh denoiser (wet/dry 0) with
the processor disabled (target 0), the first update moves the state to
FLT_MIN — strictly past the target — and the second update increases it
further even though the state is above the target, because the update
adds FLT_MIN every frame. -/
theorem C7_counterexample :
    (fft_denoiser_init 44100 4 2).wet_dry = 0 ∧
    0 < (fft_denoiser_update_wetdry_target (fft_denoiser_init 44100 4 2) false).wet_dry ∧
    (fft_denoiser_update_wetdry_target (fft_denoiser_init 44100 4 2) false).wet_dry <
      (fft_denoiser_update_wetdry_target (fft_denoiser_update_wetdry_target
        (fft_denoiser_init 44100 4 2) false) false).wet_dry := by
  have h0 : (fft_denoiser_init 44100 4 2).wet_dry = 0 := rfl
  have hw1 : (fft_denoiser_update_wetdry_target (fft_denoiser_init 44100 4 2)
      false).wet_dry = FLT_MIN := by
    rw [fft_denoiser_update_wetdry_target_wet_dry, h0]
    simp
  have htau : (fft_denoiser_init 44100 4 2).tau =
      1 - Real.exp (-2 * Real.pi * 25 * 64 / ((44100 : ℕ) : ℝ)) := rfl
  refine ⟨rfl, by rw [hw1]; exact FLT_MIN_pos, ?_⟩
  rw [fft_denoiser_update_wetdry_target_wet_dry
    (fft_denoiser_update_wetdry_target (fft_denoiser_init 44100 4 2) false) false]
  rw [fft_denoiser_update_wetdry_target_tau, hw1, htau]
  simp only [Bool.false_eq_true, if_false]
  have hE := Real.exp_pos (-2 * Real.pi * 25 * 64 / ((44100 : ℕ) : ℝ))
  have hm := FLT_MIN_pos
  nlinarith

/-- C7 (amended): the wet/dry scalar starts at 0 and the construction
constant tau lies in (0,1) for every positive sample rate; with tau in
(0,1) every update keeps the state inside [0, 1 + FLT_MIN/tau]; when
enabled and below 1 an update strictly increases the state; when disabled
an update strictly decreases the state exactly while it exceeds
FLT_MIN/tau, and never drives it below 0 — i.e. convergence toward the
target is monotone only outside a FLT_MIN/tau neighbourhood above the
target, and the state can exceed 1 by at most FLT_MIN/tau. -/
theorem C7_wet_dry_dynamics (samp_rate fft_size overlap_factor : ℕ)
    (hs : 1 ≤ samp_rate) (self : FFTDenoiser) (enable : Bool)
    (ht0 : 0 < self.tau) (ht1 : self.tau < 1)
    (h0 : 0 ≤ self.wet_dry) (h1 : self.wet_dry ≤ 1 + FLT_MIN / self.tau) :
    ((fft_denoiser_init samp_rate fft_size overlap_factor).wet_dry = 0 ∧
      0 < (fft_denoiser_init samp_rate fft_size overlap_factor).tau ∧
      (fft_denoiser_init samp_rate fft_size overlap_factor).tau < 1) ∧
    (0 ≤ (fft_denoiser_update_wetdry_target self enable).wet_dry ∧
      (fft_denoiser_update_wetdry_target self enable).wet_dry ≤
        1 + FLT_MIN / self.tau) ∧
    (enable = true → self.wet_dry < 1 →
      self.wet_dry < (fft_denoiser_update_wetdry_target self enable).wet_dry) ∧
    (enable = false → FLT_MIN / self.tau < self.wet_dry →
      (fft_denoiser_update_wetdry_target self enable).wet_dry < self.wet_dry) ∧
    (enable = false → 0 < (fft_denoiser_update_wetdry_target self enable).wet_dry) := by
  have hm := FLT_MIN_pos
  have hB : self.tau * (1 + FLT_MIN / self.tau) = self.tau + FLT_MIN := by
    field_simp
  have hrate : (0:ℝ) < (samp_rate : ℝ) := by exact_mod_cast hs
  have hc : -2 * Real.pi * 25 * 64 / ((samp_rate : ℕ) : ℝ) < 0 := by
    apply div_neg_of_neg_of_pos
    · have := Real.pi_pos
      nlinarith
    · exact hrate
  refine ⟨⟨rfl, ?_, ?_⟩, ?_, ?_, ?_, ?_⟩
  · have : Real.exp (-2 * Real.pi * 25 * 64 / ((samp_rate : ℕ) : ℝ)) < 1 := by
      rw [show (1:ℝ) = Real.exp 0 from (Real.exp_zero).symm]
      exact Real.exp_lt_exp.mpr hc
    show 0 < 1 - Real.exp (-2 * Real.pi * 25 * 64 / ((samp_rate : ℕ) : ℝ))
    linarith
  · have := Real.exp_pos (-2 * Real.pi * 25 * 64 / ((samp_rate : ℕ) : ℝ))
    show 1 - Real.exp (-2 * Real.pi * 25 * 64 / ((samp_rate : ℕ) : ℝ)) < 1
    linarith
  · cases enable
    · show 0 ≤ self.wet_dry + self.tau * ((0:ℝ) - self.wet_dry) + FLT_MIN ∧
        self.wet_dry + self.tau * ((0:ℝ) - self.wet_dry) + FLT_MIN ≤
          1 + FLT_MIN / self.tau
      constructor
      · nlinarith
      · nlinarith
    · show 0 ≤ self.wet_dry + self.tau * ((1:ℝ) - self.wet_dry) + FLT_MIN ∧
        self.wet_dry + self.tau * ((1:ℝ) - self.wet_dry) + FLT_MIN ≤
          1 + FLT_MIN / self.tau
      constructor
      · nlinarith
      · nlinarith
  · intro he hlt
    subst he
    show self.wet_dry < self.wet_dry + self.tau * ((1:ℝ) - self.wet_dry) + FLT_MIN
    nlinarith
  · intro he hgt
    subst he
    show self.wet_dry + self.tau * ((0:ℝ) - self.wet_dry) + FLT_MIN < self.wet_dry
    have : FLT_MIN < self.tau * self.wet_dry := by
      rw [div_lt_iff₀ ht0] at hgt
      linarith [hgt]
    nlinarith
  · intro he
    subst he
    show 0 < self.wet_dry + self.tau * ((0:ℝ) - self.wet_dry) + FLT_MIN
    nlinarith

/-- A concrete denoiser state with tau = 1/2 and wet/dry 0, used to
instantiate the wet/dry dynamics. -/
def wetdry_witness_state : FFTDenoiser :=
  { fft_denoiser_init 1 4 2 with tau := 1/2, wet_dry := 0 }

theorem wetdry_witness_state_tau : wetdry_witness_state.tau = 1/2 := rfl

theorem wetdry_witness_state_wet_dry : wetdry_witness_state.wet_dry = 0 := rfl

/-- Witness for C7: the dynamics instantiated on a state with tau = 1/2
and wet/dry 0, with the processor enabled. -/
theorem C7_witness :
    0 ≤ (fft_denoiser_update_wetdry_target wetdry_witness_state true).wet_dry ∧
    (fft_denoiser_update_wetdry_target wetdry_witness_state true).wet_dry ≤
      1 + FLT_MIN / wetdry_witness_state.tau ∧
    (0:ℝ) < (fft_denoiser_update_wetdry_target wetdry_witness_state true).wet_dry := by
  have h := C7_wet_dry_dynamics 1 4 2 le_rfl wetdry_witness_state true
    (by rw [wetdry_witness_state_tau]; norm_num)
    (by rw [wetdry_witness_state_tau]; norm_num)
    (by rw [wetdry_witness_state_wet_dry])
    (by rw [wetdry_witness_state_wet_dry, wetdry_witness_state_tau]
        have := FLT_MIN_pos
        nlinarith)
  have h3 := h.2.2.1 rfl (by rw [wetdry_witness_state_wet_dry]; norm_num)
  rw [wetdry_witness_state_wet_dry] at h3
  exact ⟨h.2.1.1, h.2.1.2, h3⟩

/-! ## Claim C4 -/

/-- A gain-estimator implementation returning zero gain everywhere, used
for concrete instances. -/
def zero_gain_est : GainEstFn := fun _ _ _ _ _ _ => fun _ => 0

/-- A noise-estimator implementation that keeps the profile, used for
concrete instances. -/
def keep_noise_est : NoiseEstFn := fun noise_profile _ => (noise_profile, true)

/-- A denoiser with an available noise profile, for concrete instances. -/
def example_state : FFTDenoiser :=
  { fft_denoiser_init 44100 4 2 with noise_available := true }

/-- Parameter snapshot: enabled, not learning, not listening, reduction
control at 10 dB, everything else zero. -/
def example_params : DenoiseParameters := ⟨true, false, false, 10, 0, 0, 0, 0, 0⟩

/-- A frame with energy only in bin 1. -/
def example_frame : ℕ → ℝ := fun k => if k = 1 then 1 else 0

theorem example_power_one :
    fft_denoiser_frame_power example_state example_frame 1 = 1 := by
  norm_num [fft_denoiser_frame_power, get_info_from_bins, example_state,
    fft_denoiser_init, example_frame]

theorem example_power_two :
    fft_denoiser_frame_power example_state example_frame 2 = 0 := by
  norm_num [fft_denoiser_frame_power, get_info_from_bins, example_state,
    fft_denoiser_init, example_frame]

theorem example_not_empty :
    is_empty (fft_denoiser_frame_power example_state example_frame)
      example_state.half_fft_size = false := by
  have hh : example_state.half_fft_size = 2 := rfl
  rw [hh]
  show (if fft_denoiser_frame_power example_state example_frame 2 > FLT_MIN then false
    else is_empty (fft_denoiser_frame_power example_state example_frame) 1) = false
  rw [example_power_two, if_neg (not_lt.mpr FLT_MIN_pos.le)]
  show (if fft_denoiser_frame_power example_state example_frame 1 > FLT_MIN then false
    else is_empty (fft_denoiser_frame_power example_state example_frame) 0) = false
  rw [example_power_one, if_pos FLT_MIN_lt_one]

theorem example_mid_denoised_one :
    (fft_denoiser_run_mid zero_gain_est keep_noise_est example_state example_params
      example_frame).denoised_spectrum 1 = 0 := by
  rw [fft_denoiser_run_mid_gain_branch zero_gain_est keep_noise_est example_state
    example_params example_frame example_not_empty rfl rfl]
  rw [get_final_spectrum_denoised, get_residual_spectrum_denoised]
  rw [get_denoised_spectrum_apply _ 1 le_rfl (by show (1:ℕ) ≤ 2; norm_num)]
  simp [zero_gain_est]

theorem example_mid_residual_one :
    (fft_denoiser_run_mid zero_gain_est keep_noise_est example_state example_params
      example_frame).residual_spectrum 1 = 1 := by
  rw [fft_denoiser_run_mid_gain_branch zero_gain_est keep_noise_est example_state
    example_params example_frame example_not_empty rfl rfl]
  rw [get_final_spectrum_residual]
  rw [show example_params.whitening_factor = (0:ℝ) from rfl]
  rw [get_residual_spectrum_apply_nowhitening _ 1 le_rfl
    (by rw [get_denoised_spectrum_half]; show (1:ℕ) ≤ 2; norm_num)]
  rw [get_denoised_spectrum_fft]
  rw [get_denoised_spectrum_apply _ 1 le_rfl (by show (1:ℕ) ≤ 2; norm_num)]
  rw [show ({ fft_denoiser_run_pre example_state example_params example_frame with
      gain_spectrum := zero_gain_est
        (fft_denoiser_frame_power example_state example_frame)
        example_state.noise_profile example_params.transient_threshold
        (example_params.masking_ceiling_limit / 100) example_params.release_time
        example_params.noise_rescale } : FFTDenoiser).fft_spectrum 1 = 1 from rfl]
  simp [zero_gain_est]

/-- C4 counterexample: with the reduction-amount control read as 10 (dB),
the processed spectrum at bin 1 of a concrete run is denoised + residual
· 1/10 = 1/10 (the code converts through 10^(-dB/10)), while the claim's
formula denoised + residual · 10^(dB/10) gives 10. -/
theorem C4_counterexample :
    (fft_denoiser_run_mid zero_gain_est keep_noise_est example_state example_params
      example_frame).processed_fft_spectrum 1 = 1/10 ∧
    (fft_denoiser_run_mid zero_gain_est keep_noise_est example_state example_params
      example_frame).denoised_spectrum 1 +
      (fft_denoiser_run_mid zero_gain_est keep_noise_est example_state example_params
        example_frame).residual_spectrum 1 *
        (10:ℝ) ^ (example_params.reduction_amount / 10) = 10 ∧
    (1/10 : ℝ) ≠ 10 := by
  have hp : (fft_denoiser_run_mid zero_gain_est keep_noise_est example_state
      example_params example_frame).processed_fft_spectrum 1 =
      (fft_denoiser_run_mid zero_gain_est keep_noise_est example_state example_params
        example_frame).denoised_spectrum 1 +
      (fft_denoiser_run_mid zero_gain_est keep_noise_est example_state example_params
        example_frame).residual_spectrum 1 * from_db_to_cv (10 * (-1)) := by
    rw [fft_denoiser_run_mid_gain_branch zero_gain_est keep_noise_est example_state
      example_params example_frame example_not_empty rfl rfl]
    rw [show example_params.residual_listen = false from rfl]
    rw [get_final_spectrum_processed_off _ _ 1 le_rfl
      (by rw [get_residual_spectrum_half, get_denoised_spectrum_half]
          show (1:ℕ) ≤ 2; norm_num)]
    rw [get_final_spectrum_denoised, get_final_spectrum_residual]
    rw [show example_params.reduction_amount = (10:ℝ) from rfl]
  have hcv : from_db_to_cv (10 * (-1)) = 1/10 := by
    unfold from_db_to_cv
    rw [show (10 * (-1) : ℝ) / 10 * Real.log 10 = -Real.log 10 by ring]
    rw [Real.exp_neg, Real.exp_log (by norm_num : (0:ℝ) < 10)]
    norm_num
  have hrpow : (10:ℝ) ^ (example_params.reduction_amount / 10) = 10 := by
    rw [show example_params.reduction_amount = (10:ℝ) from rfl]
    rw [show (10:ℝ) / 10 = 1 by norm_num, Real.rpow_one]
  refine ⟨?_, ?_, by norm_num⟩
  · rw [hp, example_mid_denoised_one, example_mid_residual_one, hcv]
    norm_num
  · rw [example_mid_denoised_one, example_mid_residual_one, hrpow]
    norm_num

/-- C4 (amended): when a noise profile is available, learning is off and
the frame is non-empty, the frame's processed spectrum at every bin
1..halfSize equals the residual (listen mode) or
denoised + residual · r, where r = from_db_to_cv(-dB) = 10^(-dB/10) and
dB is the reduction-amount parameter read at the start of the frame — the
code negates the control before the power-domain dB-to-linear
conversion. -/
theorem C4_final_spectrum (gE : GainEstFn) (nE : NoiseEstFn) (self : FFTDenoiser)
    (p : DenoiseParameters) (frame : ℕ → ℝ) (k : ℕ)
    (hne : is_empty (fft_denoiser_frame_power self frame) self.half_fft_size = false)
    (hlearn : p.learn_noise = false) (havail : self.noise_available = true)
    (h1 : 1 ≤ k) (h2 : k ≤ self.half_fft_size) :
    ((fft_denoiser_run_mid gE nE self p frame).processed_fft_spectrum k =
      if p.residual_listen then
        (fft_denoiser_run_mid gE nE self p frame).residual_spectrum k
      else
        (fft_denoiser_run_mid gE nE self p frame).denoised_spectrum k +
          (fft_denoiser_run_mid gE nE self p frame).residual_spectrum k *
            from_db_to_cv (p.reduction_amount * (-1))) ∧
    (∀ x : ℝ, from_db_to_cv x = (10:ℝ) ^ (x / 10)) := by
  constructor
  · rw [fft_denoiser_run_mid_gain_branch gE nE self p frame hne hlearn havail]
    cases hrl : p.residual_listen
    · simp only [Bool.false_eq_true, if_false]
      rw [get_final_spectrum_processed_off _ _ k h1
        (by rw [get_residual_spectrum_half, get_denoised_spectrum_half]; exact h2)]
      rw [get_final_spectrum_denoised, get_final_spectrum_residual]
    · simp only [if_true]
      rw [get_final_spectrum_processed_listen _ _ k h1
        (by rw [get_residual_spectrum_half, get_denoised_spectrum_half]; exact h2)]
      rw [get_final_spectrum_residual]
  · intro x
    unfold from_db_to_cv
    rw [Real.rpow_def_of_pos (by norm_num : (0:ℝ) < 10), mul_comm]

/-- Witness for C4: the final-spectrum relation instantiated at bin 1 of
a concrete run with the reduction control at 10 dB, plus the dB-to-linear
conversion evaluated at 20 dB. -/
theorem C4_witness :
    (fft_denoiser_run_mid zero_gain_est keep_noise_est example_state example_params
      example_frame).processed_fft_spectrum 1 =
      (fft_denoiser_run_mid zero_gain_est keep_noise_est example_state example_params
        example_frame).denoised_spectrum 1 +
      (fft_denoiser_run_mid zero_gain_est keep_noise_est example_state example_params
        example_frame).residual_spectrum 1 *
        from_db_to_cv (example_params.reduction_amount * (-1)) ∧
    from_db_to_cv 20 = (10:ℝ) ^ ((20:ℝ) / 10) := by
  have h := C4_final_spectrum zero_gain_est keep_noise_est example_state example_params
    example_frame 1 example_not_empty rfl rfl le_rfl (by show (1:ℕ) ≤ 2; norm_num)
  constructor
  · have h1 := h.1
    rw [show example_params.residual_listen = false from rfl] at h1
    simp only [Bool.false_eq_true, if_false] at h1
    exact h1
  · exact h.2 20

/-! ## LV2 plugin state persistence (src/unnamed/part_000) -/

/-- The NoiseProfile record of data_types.h: a uint32 size tag and the
magnitude array behind the `noise_profile` float pointer (modelled as the
list of its entries). -/
structure NoiseProfile where
  noise_profile_size : ℕ
  noise_profile : List ℝ

/-- Byte size of a C float on the plugin's target platforms. -/
def sizeof_float : ℕ := 4

/-- Byte size of a uint32. -/
def sizeof_uint32 : ℕ := 4

/-- `sizeof(noise_profile)` in `plugin_state_savestate`, where
`noise_profile` is the `NoiseProfile *` function parameter: the size of a
POINTER — 8 bytes on the usual 64-bit platform. -/
def sizeof_noise_profile_ptr : ℕ := 8

/-- The byte count the spec's store contract requires for a profile of
`size` magnitudes: the uint32 size tag plus `size` floats. -/
def noise_profile_required_bytes (size : ℕ) : ℕ :=
  sizeof_uint32 + sizeof_float * size

/-- The profile `store` call of `plugin_state_savestate` passes
`(void *)noise_profile` — the struct pointer — as the data and
`sizeof(noise_profile)` — the size of the `NoiseProfile *` pointer, 8
bytes — as the length.  The stored range covers only the leading bytes of
the struct itself: the `noise_profile_size` field (4 bytes) and alignment
padding (and at most the pointer value, which carries no array contents);
no element of the magnitude array, which lives behind the pointer, lies
in the stored range.  The payload is therefore a function of the size
field alone; we model it as the pair (stored byte length, size field). -/
def plugin_state_savestate_profile (np : NoiseProfile) : ℕ × ℕ :=
  (sizeof_noise_profile_ptr, np.noise_profile_size)

/-- C9: the profile payload stored by `plugin_state_savestate` is
identical for two profiles that differ only in their magnitudes, and its
byte length is already smaller than the spec's `{size, magnitudes[size]}`
blob at size 3 — so no restore procedure can recover the magnitude array
from the stored data: the save/restore roundtrip loses the entire
magnitude array instead of copying it bit-for-bit. -/
theorem C9_savestate_truncation :
    plugin_state_savestate_profile ⟨3, [1, 2, 3]⟩ =
      plugin_state_savestate_profile ⟨3, [0, 0, 0]⟩ ∧
    ([1, 2, 3] : List ℝ) ≠ [0, 0, 0] ∧
    sizeof_noise_profile_ptr < noise_profile_required_bytes 3 := by
  refine ⟨rfl, by norm_num, ?_⟩
  norm_num [sizeof_noise_profile_ptr, noise_profile_required_bytes, sizeof_uint32,
    sizeof_float]

end NoiseRepellent
